import Mathlib

/-!
Verification of the Sweet JS Compiler runtime (src/app.js): a shallow
embedding of the sandboxed-execution message protocol, the run controller
with its debounced auto-run scheduler, the host message listener, and the
persistence of the editor text.

Conventions of the embedding:
* JavaScript values that can appear as console arguments or as the return
  value of the executed code are modelled by `JSVal`; objects carry either
  the string their structural serialization produces, or the exception that
  serialization raises.
* Thrown JavaScript values are modelled by `JSThrown`: a truthy thrown
  value carries a `JSException` (optional stack trace, optional message,
  and a generic string conversion; absent-or-falsy fields are `none`),
  while falsy thrown values (null, undefined, false, 0, NaN, the empty
  string) short-circuit the catch branch's `e &&` guard, so the posted
  payload is the raw value itself; `MsgPayload` therefore distinguishes
  string payloads from raw falsy ones.
* The observable behaviour of one execution of the user code inside the
  sandbox is a `ProgBehavior`: the console calls it performs, in order,
  followed by its outcome (a returned value or a thrown exception).
* Host state mutated by the controller (editor text, output log, status
  line, last-run snapshot, debounce timer, persisted storage, and the list
  of sandbox instances created) is the record `AppState`; timers are
  modelled with absolute firing times in milliseconds.
-/

/-- The four console channels intercepted by the sandbox shim
(src/app.js line 90: `forEach` over log, info, warn, error). -/
inductive ConsoleKind
  | log
  | info
  | warn
  | error
deriving DecidableEq

/-- The wire string for a console kind, as used by `send(k, ...)`. -/
def ConsoleKind.str : ConsoleKind → String
  | .log => "log"
  | .info => "info"
  | .warn => "warn"
  | .error => "error"

/-- A truthy thrown JavaScript value as observed by the catch branches of
the sandbox script (every `Error` instance, and every object, is truthy):
`stack` and `message` are `some` exactly when the corresponding property
is present and truthy, and `str` is the generic string conversion
`String(e)`. Falsy thrown values are modelled separately by `JSThrown`. -/
structure JSException where
  stack : Option String
  message : Option String
  str : String
deriving DecidableEq

/-- The parenthesized chain of the catch branch (src/app.js line 105):
`e.stack || e.message || String(e)` — prefer the stack trace, fall back to
the message, fall back to the generic string conversion. The code only
reaches this chain when `e` is truthy; the leading `e &&` guard is
modelled in `thrownPayload`. -/
def JSException.diag (e : JSException) : String :=
  e.stack.getD (e.message.getD e.str)

/-- A falsy, non-string JavaScript value (the remaining falsy value, the
empty string, is a string and is modelled as such). -/
inductive FalsyVal
  | vnull
  | vundefined
  | vfalse
  | vzero
  | vnan
deriving DecidableEq

/-- The generic string conversion `String(v)` of a falsy non-string value
(what the diagnostic chain would have produced had it been reached). -/
def FalsyVal.str : FalsyVal → String
  | .vnull => "null"
  | .vundefined => "undefined"
  | .vfalse => "false"
  | .vzero => "0"
  | .vnan => "NaN"

/-- The value carried in the `msg` slot of a posted message: normally a
string, but the catch branch of a falsy non-string thrown value posts the
raw falsy value itself. -/
inductive MsgPayload
  | str (s : String)
  | raw (v : FalsyVal)
deriving DecidableEq

instance : Coe String MsgPayload := ⟨.str⟩

/-- A thrown JavaScript value: a truthy one (any `Error`, any object, any
truthy primitive), the falsy empty string, or a falsy non-string value. -/
inductive JSThrown
  | exn (e : JSException)
  | emptyString
  | falsy (v : FalsyVal)
deriving DecidableEq

/-- The payload the catch branch sends (src/app.js line 105):
`e && (e.stack || e.message || String(e))`. For a truthy `e` this is the
diagnostic chain; for a falsy `e` the `&&` short-circuits and the thrown
value itself is posted — the empty string for a thrown empty string, the
raw falsy value otherwise. -/
def thrownPayload : JSThrown → MsgPayload
  | .exn e => .str e.diag
  | .emptyString => .str ""
  | .falsy v => .raw v

/-- A JavaScript value appearing as a console argument or return value.
`prim s` is a non-object, non-undefined value whose `String(a)` coercion is
`s`; `objSer s` is an object whose `JSON.stringify(a, null, 2)` returns the
string `s`; `objBad e` is an object whose `JSON.stringify` throws `e`. -/
inductive JSVal
  | vundefined
  | vnull
  | prim (s : String)
  | objSer (s : String)
  | objBad (e : JSException)
deriving DecidableEq

/-- Serialization of one console argument by the shim (src/app.js lines
93-95): `typeof a === "object"` (null and all objects) goes through
`JSON.stringify(a, null, 2)` with the fixed placeholder `[object]` on
failure; everything else is `String(a)`. `JSON.stringify(null)` is the
string `null`. -/
def serializeArg : JSVal → String
  | .vundefined => "undefined"
  | .vnull => "null"
  | .prim s => s
  | .objSer s => s
  | .objBad _ => "[object]"

/-- One intercepted console call: a channel and its argument list. -/
structure ConsoleCall where
  kind : ConsoleKind
  args : List JSVal
deriving DecidableEq

/-- The outcome of executing the user code: `fn()` either returns a value
(`vundefined` when the code falls off the end without `return`) or throws. -/
inductive Outcome
  | ret (v : JSVal)
  | throw (e : JSThrown)
deriving DecidableEq

/-- The observable behaviour of one execution of the user code inside the
sandbox: the console calls it performs, in order, then its outcome. A
`SyntaxError` from `new Function(code)` is `⟨[], .throw e⟩`. -/
structure ProgBehavior where
  calls : List ConsoleCall
  outcome : Outcome
deriving DecidableEq

/-- A message posted from the sandbox to the host
(`parent.postMessage({type, msg}, "*")`, src/app.js line 89). -/
structure Message where
  type : String
  msg : MsgPayload
deriving DecidableEq

/-- The message produced by one console call: the arguments are serialized
and space-joined (src/app.js lines 93-95). -/
def consoleMsg (c : ConsoleCall) : Message :=
  ⟨c.kind.str, String.intercalate " " (c.args.map serializeArg)⟩

/-- The messages emitted after `result = fn()` returns (src/app.js lines
102-107). `undefined` suppresses the result message. An object result goes
through `JSON.stringify(result, null, 2)` with NO placeholder fallback:
this call sits inside the outer `try`, so when it throws the catch branch
emits the error diagnostic and `done:error` instead (and the result message
and `done:ok` are never sent). -/
def resultMessages : JSVal → List Message
  | .vundefined => [⟨"done", "ok"⟩]
  | .vnull => [⟨"result", "null"⟩, ⟨"done", "ok"⟩]
  | .prim s => [⟨"result", s⟩, ⟨"done", "ok"⟩]
  | .objSer s => [⟨"result", s⟩, ⟨"done", "ok"⟩]
  | .objBad e => [⟨"error", e.diag⟩, ⟨"done", "error"⟩]

/-- The full message sequence one sandbox instance posts for one run
(src/app.js lines 86-110): every console message in emission order, then
either the result path or the catch branch (`error` diagnostic followed by
`done:error`). -/
def sandboxRun (b : ProgBehavior) : List Message :=
  b.calls.map consoleMsg ++
    match b.outcome with
    | .ret v => resultMessages v
    | .throw e => [⟨"error", thrownPayload e⟩, ⟨"done", "error"⟩]

/-- Host application state owned by the run controller (module-level
mutable state of src/app.js plus the DOM pieces the claims observe).
`runs` records the source text of every sandbox instance created, in
creation order; `timer` is the absolute firing time of the pending debounce
callback, if any; `storage` is the persisted source-text entry. -/
structure AppState where
  editor : String
  output : List (String × MsgPayload)
  statusClass : String
  statusText : String
  lastRunCode : String
  autorun : Bool
  timer : Option Nat
  storage : Option String
  runs : List String
deriving DecidableEq

/-- The state after startup (src/app.js line 176: `setStatus("idle",
"Idle")`) with empty editor and no persisted code. -/
def initialAppState : AppState :=
  { editor := ""
    output := []
    statusClass := "idle"
    statusText := "Idle"
    lastRunCode := ""
    autorun := false
    timer := none
    storage := none
    runs := [] }

/-- JavaScript `String.prototype.trim`: strip leading and trailing
whitespace (the `!code.trim()` guard of src/app.js line 78 tests whether
this is empty). Written structurally over the character list so that it
evaluates inside the kernel. -/
def jsTrim (s : String) : String :=
  String.mk (((s.data.dropWhile fun c => c.isWhitespace).reverse.dropWhile
    fun c => c.isWhitespace).reverse)

/-- `runCode` (src/app.js lines 76-111): when the trimmed text is empty,
only the status changes to the informational idle state and no sandbox is
created; otherwise the output is cleared, status becomes running, the
last-run snapshot is taken, and a fresh sandbox instance is created for
the text. -/
def runCodeS (s : AppState) : AppState :=
  if jsTrim s.editor = "" then
    { s with statusClass := "idle", statusText := "Nothing to run" }
  else
    { s with
      output := []
      statusClass := "running"
      statusText := "Running…"
      lastRunCode := s.editor
      runs := s.runs ++ [s.editor] }

/-- The host message listener (src/app.js lines 114-123): a falsy `type`
is ignored; `done` only moves the status (to success on payload `ok`, to
error otherwise); every other message appends one output line. -/
def onMessage (s : AppState) (m : Message) : AppState :=
  if m.type = "" then s
  else if m.type = "done" then
    if m.msg = "ok" then { s with statusClass := "success", statusText := "Completed" }
    else { s with statusClass := "error", statusText := "Error" }
  else { s with output := s.output ++ [(m.type, m.msg)] }

/-- Deliver a run message sequence to the host listener in order. -/
def applyMessages (s : AppState) (msgs : List Message) : AppState :=
  msgs.foldl onMessage s

/-- The output lines a message list contributes (non-`done`, non-falsy
messages, in order). -/
def displayLines (msgs : List Message) : List (String × MsgPayload) :=
  msgs.filterMap fun m =>
    if m.type = "" then none
    else if m.type = "done" then none
    else some (m.type, m.msg)

/-- `scheduleAutoRun` (src/app.js lines 126-132), called at time `t`: when
the auto-run checkbox is unchecked it returns at once (without touching any
pending timer); otherwise it clears the pending timer and schedules the
debounce callback `DEBOUNCE_MS` from now. -/
def DEBOUNCE_MS : Nat := 600

/-- The body of the debounce timeout (src/app.js lines 129-131): run only
when the current text differs from the last-run snapshot. -/
def autoRunCallback (s : AppState) : AppState :=
  if s.editor ≠ s.lastRunCode then runCodeS s else s

def scheduleAutoRun (t : Nat) (s : AppState) : AppState :=
  if s.autorun then { s with timer := some (t + DEBOUNCE_MS) }
  else s

/-- The editor input listener (src/app.js lines 153-156), firing at time
`t` after the keystroke set the editor text: persist the exact current
text, then schedule the debounced auto-run. -/
def onInput (t : Nat) (text : String) (s : AppState) : AppState :=
  scheduleAutoRun t { s with editor := text, storage := some text }

/-- Fire the pending debounce callback if its time is due at time `t`
(single-threaded event loop: a due timeout runs before any later event). -/
def fireIfDue (t : Nat) (s : AppState) : AppState :=
  match s.timer with
  | some tf => if tf ≤ t then autoRunCallback { s with timer := none } else s
  | none => s

/-- User-visible events at absolute times: a keystroke that changes the
editor text (firing the input listener), and toggling the auto-run
checkbox (which has no listener in src/app.js, so only the checkbox state
changes). -/
inductive Ev
  | input (t : Nat) (text : String)
  | toggleAutorun (t : Nat) (b : Bool)
deriving DecidableEq

/-- Process one event: first fire any debounce timer due by the event's
time, then the event's own handlers. -/
def stepEv (s : AppState) (e : Ev) : AppState :=
  match e with
  | .input t text => onInput t text (fireIfDue t s)
  | .toggleAutorun t b => { fireIfDue t s with autorun := b }

/-- After the last event, let the pending debounce timer (if any) fire. -/
def flushTimer (s : AppState) : AppState :=
  match s.timer with
  | some _ => autoRunCallback { s with timer := none }
  | none => s

/-- Process a time-ordered event list and then let any pending debounce
timer fire. -/
def runEvents (s : AppState) (evs : List Ev) : AppState :=
  flushTimer (evs.foldl stepEv s)

/-- Startup restore (src/app.js lines 29-30): `if (savedCode)
els.code.value = savedCode` — a missing or empty (falsy) entry leaves the
editor at the textarea default, the empty string. -/
def initEditor (storage : Option String) : String :=
  match storage with
  | some c => if c = "" then "" else c
  | none => ""

lemma consoleMsg_type_ne_done (c : ConsoleCall) : (consoleMsg c).type ≠ "done" := by
  obtain ⟨k, args⟩ := c
  cases k <;> simp [consoleMsg, ConsoleKind.str]

/-- C1: for every behaviour of the executed code, the run's message
sequence is the console messages in emission order, then at most one
result-or-error message, then exactly one terminal `done` message; no
console or result message follows the `done`. -/
theorem run_ends_in_one_done (b : ProgBehavior) :
    ∃ (extra : List Message) (d : Message),
      sandboxRun b = b.calls.map consoleMsg ++ extra ++ [d] ∧
      d.type = "done" ∧ extra.length ≤ 1 ∧
      ∀ m ∈ b.calls.map consoleMsg ++ extra, m.type ≠ "done" := by
  obtain ⟨calls, outcome⟩ := b
  have hc : ∀ m ∈ calls.map consoleMsg, m.type ≠ "done" := by
    intro m hm
    obtain ⟨c, _, rfl⟩ := List.mem_map.mp hm
    exact consoleMsg_type_ne_done c
  have hext : ∀ (x : Message), x.type ≠ "done" →
      ∀ m ∈ calls.map consoleMsg ++ [x], m.type ≠ "done" := by
    intro x hx m hm
    rcases List.mem_append.mp hm with h | h
    · exact hc m h
    · rw [List.mem_singleton.mp h]; exact hx
  cases outcome with
  | ret v =>
    cases v with
    | vundefined =>
      exact ⟨[], ⟨"done", "ok"⟩, by simp [sandboxRun, resultMessages], rfl,
        by simp, by simpa using hc⟩
    | vnull =>
      exact ⟨[⟨"result", "null"⟩], ⟨"done", "ok"⟩,
        by simp [sandboxRun, resultMessages], rfl, by simp,
        hext ⟨"result", "null"⟩ (by simp)⟩
    | prim s =>
      exact ⟨[⟨"result", s⟩], ⟨"done", "ok"⟩,
        by simp [sandboxRun, resultMessages], rfl, by simp,
        hext ⟨"result", s⟩ (by simp)⟩
    | objSer s =>
      exact ⟨[⟨"result", s⟩], ⟨"done", "ok"⟩,
        by simp [sandboxRun, resultMessages], rfl, by simp,
        hext ⟨"result", s⟩ (by simp)⟩
    | objBad e =>
      exact ⟨[⟨"error", e.diag⟩], ⟨"done", "error"⟩,
        by simp [sandboxRun, resultMessages], rfl, by simp,
        hext ⟨"error", e.diag⟩ (by simp)⟩
  | throw e =>
    exact ⟨[⟨"error", thrownPayload e⟩], ⟨"done", "error"⟩,
      by simp [sandboxRun], rfl, by simp,
      hext ⟨"error", thrownPayload e⟩ (by simp)⟩

/-- Models the JS evaluation of the scenario source text
`console.log("hi"); return 2+2` (the spec scenario writes the argument in
single quotes): one console.log call with the single string argument hi,
then a normal return of the number 4, whose string coercion is "4". -/
def scenarioHi : ProgBehavior := ⟨[⟨.log, [.prim "hi"]⟩], .ret (.prim "4")⟩

/-- C5: the scenario input produces exactly the messages log "hi",
result "4", done "ok", in that order. -/
theorem scenario_hi_messages :
    sandboxRun scenarioHi = [⟨"log", "hi"⟩, ⟨"result", "4"⟩, ⟨"done", "ok"⟩] := by
  decide

/-- Models the exception thrown by the scenario source text
`throw new Error("boom")`: a typical Error instance with a truthy stack
trace, the message boom, and the generic string conversion. -/
def boomExn : JSException :=
  ⟨some "Error: boom\n    at <anonymous>:1:1", some "boom", "Error: boom"⟩

/-- The behaviour of the boom scenario: no console calls, then the throw
of the truthy Error instance. -/
def boomBehavior : ProgBehavior := ⟨[], .throw (.exn boomExn)⟩

/-- The behaviour of an input that executes `throw null`: no console
calls, then the throw of the falsy value null. -/
def throwNullBehavior : ProgBehavior := ⟨[], .throw (.falsy .vnull)⟩

/-- C6 counterexample: for the input that throws null, the catch branch's
`e && (e.stack || e.message || String(e))` short-circuits at the falsy
`e`, so the posted error payload is the raw null value itself — not a
diagnostic string, and in particular not the generic string conversion
String(null), which is the string "null" — refuting the claim's fallback
chain at this thrown value. -/
theorem throw_null_payload_not_string :
    sandboxRun throwNullBehavior =
      [⟨"error", MsgPayload.raw FalsyVal.vnull⟩, ⟨"done", "error"⟩] ∧
    FalsyVal.str FalsyVal.vnull = "null" ∧
    MsgPayload.raw FalsyVal.vnull ≠ MsgPayload.str (FalsyVal.str FalsyVal.vnull) := by
  refine ⟨by decide, by decide, by decide⟩

/-- C6 amended: an execution that throws a truthy value (every Error and
every object is truthy) emits, after its console messages, exactly one
error message whose payload is the diagnostic text — preferring the stack
trace, falling back to the message, falling back to the generic string
conversion — followed by done:error. An execution that throws a falsy
value emits the same two-message shape, but the `e &&` guard
short-circuits: the error payload is the thrown falsy value itself (the
empty string for a thrown empty string, the raw non-string value
otherwise), not the diagnostic chain. In every case the failure stays
inside the message protocol: in the boom scenario the diagnostic contains
boom, and the host listener absorbs the messages, ending with the error
status rather than crashing. -/
theorem throw_emits_error_then_done :
    (∀ (calls : List ConsoleCall) (e : JSException),
        sandboxRun ⟨calls, .throw (.exn e)⟩ =
          calls.map consoleMsg ++
            [⟨"error", e.stack.getD (e.message.getD e.str)⟩, ⟨"done", "error"⟩]) ∧
    (∀ (calls : List ConsoleCall) (v : FalsyVal),
        sandboxRun ⟨calls, .throw (.falsy v)⟩ =
          calls.map consoleMsg ++
            [⟨"error", MsgPayload.raw v⟩, ⟨"done", "error"⟩]) ∧
    (∀ calls : List ConsoleCall,
        sandboxRun ⟨calls, .throw .emptyString⟩ =
          calls.map consoleMsg ++ [⟨"error", ""⟩, ⟨"done", "error"⟩]) ∧
    sandboxRun boomBehavior =
      [⟨"error", "Error: boom\n    at <anonymous>:1:1"⟩, ⟨"done", "error"⟩] ∧
    "boom".toList <:+: "Error: boom\n    at <anonymous>:1:1".toList ∧
    (applyMessages initialAppState (sandboxRun boomBehavior)).statusClass = "error" := by
  refine ⟨fun calls e => rfl, fun calls v => rfl, fun calls => rfl,
    by decide, by decide, by decide⟩

/-- A representative exception raised by `JSON.stringify` on a circular
object (the text is illustrative; no theorem depends on it). -/
def stringifyCircularExn : JSException :=
  ⟨some "TypeError: Converting circular structure to JSON",
   some "Converting circular structure to JSON",
   "TypeError: Converting circular structure to JSON"⟩

/-- A run whose code returns an object that `JSON.stringify` cannot
serialize. -/
def unserializableReturn : ProgBehavior := ⟨[], .ret (.objBad stringifyCircularExn)⟩

/-- C2 counterexample: a run returning an unserializable object does NOT
emit a result message with the placeholder followed by done:ok — the
unguarded `JSON.stringify` on the result path throws into the catch
branch, so the run emits an error message and done:error, with no result
message at all. -/
theorem unserializable_return_not_placeholder :
    sandboxRun unserializableReturn =
      [⟨"error", "TypeError: Converting circular structure to JSON"⟩,
       ⟨"done", "error"⟩] ∧
    (sandboxRun unserializableReturn).map Message.type = ["error", "done"] ∧
    sandboxRun unserializableReturn ≠ [⟨"result", "[object]"⟩, ⟨"done", "ok"⟩] := by
  refine ⟨by decide, by decide, by decide⟩

/-- C2 amended: a console argument that cannot be structurally serialized
falls back to the fixed placeholder string inside its message (the call
still succeeds); a captured return value that cannot be serialized instead
makes the run fail its serialization step: the catch branch emits the
error diagnostic and done:error, and no result message is sent (the
failure still stays inside the sandbox protocol). -/
theorem serialization_fallback :
    (∀ e : JSException, serializeArg (.objBad e) = "[object]") ∧
    (∀ (k : ConsoleKind) (pre post : List JSVal) (e : JSException),
        consoleMsg ⟨k, pre ++ .objBad e :: post⟩ =
          ⟨k.str, String.intercalate " "
            (pre.map serializeArg ++ "[object]" :: post.map serializeArg)⟩) ∧
    (∀ (calls : List ConsoleCall) (e : JSException),
        sandboxRun ⟨calls, .ret (.objBad e)⟩ =
          calls.map consoleMsg ++
            [⟨"error", e.stack.getD (e.message.getD e.str)⟩, ⟨"done", "error"⟩]) := by
  refine ⟨fun e => rfl, fun k pre post e => ?_, fun calls e => rfl⟩
  simp [consoleMsg, serializeArg]

/-- C4: on an empty-or-whitespace-only editor text, triggering a run only
sets the informational idle status ("Nothing to run"): the full state
equation shows no sandbox instance is created (`runs` unchanged), no
output entry is touched, and nothing else changes — it is not an error
state. -/
theorem empty_input_no_run (s : AppState) (h : jsTrim s.editor = "") :
    runCodeS s = { s with statusClass := "idle", statusText := "Nothing to run" } := by
  unfold runCodeS
  rw [if_pos h]

/-- A state whose editor holds only whitespace. -/
def wsState : AppState := { initialAppState with editor := " \n\t " }

theorem empty_input_no_run_witness :
    runCodeS wsState =
      { wsState with statusClass := "idle", statusText := "Nothing to run" } :=
  empty_input_no_run wsState (by decide)

/-- C7: the host listener moves the status to success on done:ok and to
error on done:error, leaving the output log untouched; every protocol
message of a non-done kind appends exactly one output line and leaves the
status (run state) unchanged. -/
theorem message_listener_transitions :
    (∀ s : AppState, onMessage s ⟨"done", "ok"⟩ =
        { s with statusClass := "success", statusText := "Completed" }) ∧
    (∀ s : AppState, onMessage s ⟨"done", "error"⟩ =
        { s with statusClass := "error", statusText := "Error" }) ∧
    (∀ (s : AppState) (m : Message),
        m.type ∈ (["log", "info", "warn", "error", "result"] : List String) →
        onMessage s m = { s with output := s.output ++ [(m.type, m.msg)] }) := by
  refine ⟨fun s => rfl, fun s => rfl, ?_⟩
  intro s m hm
  simp only [List.mem_cons, List.not_mem_nil, or_false] at hm
  rcases hm with h | h | h | h | h <;> simp [onMessage, h]

theorem message_listener_transitions_witness :
    onMessage initialAppState ⟨"log", "hi"⟩ =
      { initialAppState with output := [("log", "hi")] } :=
  message_listener_transitions.2.2 initialAppState ⟨"log", "hi"⟩ (by decide)

/-- C9: after the input listener runs for an edit, the persisted
source-text entry equals the exact current editor text, and the startup
restore applied to that persisted entry yields the same text — the
round-trip across a reload. -/
theorem persistence_round_trip (s : AppState) (t : Nat) (text : String) :
    (onInput t text s).storage = some ((onInput t text s).editor) ∧
    initEditor ((onInput t text s).storage) = (onInput t text s).editor := by
  have hE : (onInput t text s).editor = text := by
    unfold onInput scheduleAutoRun
    split <;> rfl
  have hS : (onInput t text s).storage = some text := by
    unfold onInput scheduleAutoRun
    split <;> rfl
  rw [hE, hS]
  refine ⟨rfl, ?_⟩
  show (if text = "" then "" else text) = text
  by_cases h : text = ""
  · rw [if_pos h, h]
  · rw [if_neg h]

lemma onMessage_output (s : AppState) (m : Message) :
    (onMessage s m).output =
      s.output ++
        (if m.type = "" then []
         else if m.type = "done" then []
         else [(m.type, m.msg)]) := by
  by_cases h1 : m.type = ""
  · simp [onMessage, h1]
  · by_cases h2 : m.type = "done"
    · by_cases h3 : m.msg = "ok" <;> simp [onMessage, h1, h2, h3]
    · simp [onMessage, h1, h2]

lemma applyMessages_output (msgs : List Message) (s : AppState) :
    (applyMessages s msgs).output = s.output ++ displayLines msgs := by
  induction msgs generalizing s with
  | nil => simp [applyMessages, displayLines]
  | cons m rest ih =>
    have hstep : applyMessages s (m :: rest) = applyMessages (onMessage s m) rest := rfl
    rw [hstep, ih, onMessage_output]
    by_cases h1 : m.type = ""
    · simp [displayLines, h1]
    · by_cases h2 : m.type = "done" <;> simp [displayLines, h1, h2]

/-- C10: a run triggered on non-empty (after trimming) text clears the
output log before its sandbox posts anything, so after delivering any
message sequence of that run the log holds exactly that run's non-done
messages — nothing from earlier runs survives. -/
theorem run_output_isolated (s : AppState) (msgs : List Message)
    (h : jsTrim s.editor ≠ "") :
    (runCodeS s).output = [] ∧
    (applyMessages (runCodeS s) msgs).output = displayLines msgs := by
  have hO : (runCodeS s).output = [] := by
    unfold runCodeS
    rw [if_neg h]
  refine ⟨hO, ?_⟩
  rw [applyMessages_output, hO]
  rfl

/-- A state with a non-empty editor and a stale output entry from an
earlier run. -/
def staleOutputState : AppState :=
  { initialAppState with editor := "1", output := [("log", "old")] }

theorem run_output_isolated_witness :
    (runCodeS staleOutputState).output = [] ∧
    (applyMessages (runCodeS staleOutputState)
        [⟨"log", "hi"⟩, ⟨"done", "ok"⟩]).output =
      displayLines [⟨"log", "hi"⟩, ⟨"done", "ok"⟩] :=
  run_output_isolated staleOutputState [⟨"log", "hi"⟩, ⟨"done", "ok"⟩] (by decide)

lemma onInput_autorun_on (s : AppState) (t : Nat) (text : String)
    (ha : s.autorun = true) :
    onInput t text s =
      { s with editor := text, storage := some text,
               timer := some (t + DEBOUNCE_MS) } := by
  unfold onInput scheduleAutoRun
  split
  · rfl
  · simp_all

lemma fireIfDue_not_due (t t0 : Nat) (s : AppState)
    (ht : s.timer = some (t0 + DEBOUNCE_MS)) (hlt : t < t0 + DEBOUNCE_MS) :
    fireIfDue t s = s := by
  unfold fireIfDue
  split
  · rename_i tf htf
    rw [ht] at htf
    injection htf with h
    rw [if_neg (by omega)]
  · rfl

lemma flushTimer_runs (s : AppState) :
    (flushTimer s).runs = s.runs ∨ (flushTimer s).runs = s.runs ++ [s.editor] := by
  unfold flushTimer
  split
  · unfold autoRunCallback
    split
    · unfold runCodeS
      split
      · left; rfl
      · right; rfl
    · left; rfl
  · left; rfl

/-- A burst of keystrokes: each one arrives strictly before the debounce
timer set by the previous keystroke fires. -/
def burstFrom : Nat → List (Nat × String) → Bool
  | _, [] => true
  | t0, (t, _) :: rest => decide (t < t0 + DEBOUNCE_MS) && burstFrom t rest

/-- A keystroke list is a burst when every keystroke after the first
arrives within the debounce window of its predecessor. -/
def BurstOk : List (Nat × String) → Bool
  | [] => true
  | (t, _) :: rest => burstFrom t rest

lemma burst_fold (inputs : List (Nat × String)) (s : AppState) (t0 : Nat)
    (ha : s.autorun = true) (ht : s.timer = some (t0 + DEBOUNCE_MS))
    (hb : burstFrom t0 inputs = true) :
    ((inputs.map fun p => Ev.input p.1 p.2).foldl stepEv s).runs = s.runs ∧
    ((inputs.map fun p => Ev.input p.1 p.2).foldl stepEv s).editor =
      (match inputs.getLast? with
       | some p => p.2
       | none => s.editor) := by
  induction inputs generalizing s t0 with
  | nil => exact ⟨rfl, rfl⟩
  | cons p rest ih =>
    obtain ⟨t, txt⟩ := p
    simp only [burstFrom, Bool.and_eq_true, decide_eq_true_eq] at hb
    obtain ⟨hlt, h2⟩ := hb
    have hstep : stepEv s (Ev.input t txt) = onInput t txt s := by
      show onInput t txt (fireIfDue t s) = onInput t txt s
      rw [fireIfDue_not_due t t0 s ht hlt]
    have hrec : onInput t txt s =
        { s with editor := txt, storage := some txt,
                 timer := some (t + DEBOUNCE_MS) } :=
      onInput_autorun_on s t txt ha
    have hmap : ((t, txt) :: rest).map (fun p => Ev.input p.1 p.2) =
        Ev.input t txt :: rest.map fun p => Ev.input p.1 p.2 := rfl
    rw [hmap, List.foldl_cons, hstep, hrec]
    have hres := ih
      { s with editor := txt, storage := some txt,
               timer := some (t + DEBOUNCE_MS) } t ha rfl h2
    refine ⟨hres.1, ?_⟩
    rcases rest with _ | ⟨q, rest2⟩
    · exact hres.2
    · rw [hres.2, List.getLast?_cons_cons,
        List.getLast?_eq_getLast_of_ne_nil (List.cons_ne_nil q rest2)]

/-- C8: with auto-run enabled and no timer pending, a burst of keystrokes
each arriving within the debounce window of the previous one causes at
most one run, and if a run fires it uses the text present after the last
keystroke of the burst. -/
theorem burst_at_most_one_run (s0 : AppState) (inputs : List (Nat × String))
    (ha : s0.autorun = true) (ht : s0.timer = none) (hne : inputs ≠ [])
    (hb : BurstOk inputs = true) :
    (runEvents s0 (inputs.map fun p => Ev.input p.1 p.2)).runs = s0.runs ∨
    (runEvents s0 (inputs.map fun p => Ev.input p.1 p.2)).runs =
      s0.runs ++ [(inputs.getLast hne).2] := by
  rcases inputs with _ | ⟨⟨t1, x1⟩, rest⟩
  · exact absurd rfl hne
  · have hfire : fireIfDue t1 s0 = s0 := by
      unfold fireIfDue
      split
      · rename_i tf htf
        rw [ht] at htf
        cases htf
      · rfl
    have hstep : stepEv s0 (Ev.input t1 x1) = onInput t1 x1 s0 := by
      show onInput t1 x1 (fireIfDue t1 s0) = onInput t1 x1 s0
      rw [hfire]
    have hrec : onInput t1 x1 s0 =
        { s0 with editor := x1, storage := some x1,
                  timer := some (t1 + DEBOUNCE_MS) } :=
      onInput_autorun_on s0 t1 x1 ha
    have hb1 : burstFrom t1 rest = true := hb
    have hfold := burst_fold rest
      { s0 with editor := x1, storage := some x1,
                timer := some (t1 + DEBOUNCE_MS) } t1 ha rfl hb1
    unfold runEvents
    have hmap : ((⟨t1, x1⟩ :: rest).map fun p => Ev.input p.1 p.2) =
        Ev.input t1 x1 :: rest.map fun p => Ev.input p.1 p.2 := rfl
    rw [hmap, List.foldl_cons, hstep, hrec]
    obtain ⟨hruns, hed⟩ := hfold
    rcases flushTimer_runs ((rest.map fun p => Ev.input p.1 p.2).foldl stepEv
      { s0 with editor := x1, storage := some x1,
                timer := some (t1 + DEBOUNCE_MS) }) with h | h
    · left
      rw [h, hruns]
    · right
      rw [h, hruns, hed]
      rcases rest with _ | ⟨q, rest2⟩
      · rfl
      · rw [List.getLast?_eq_getLast_of_ne_nil (List.cons_ne_nil q rest2)]
        have hlast : ((⟨t1, x1⟩ :: q :: rest2).getLast hne) =
            ((q :: rest2).getLast (List.cons_ne_nil q rest2)) :=
          List.getLast_cons (List.cons_ne_nil q rest2)
        rw [hlast]

/-- The startup state with the auto-run checkbox ticked. -/
def autorunOnState : AppState := { initialAppState with autorun := true }

theorem burst_at_most_one_run_witness :
    (runEvents autorunOnState
        ([(0, "a"), (100, "ab")].map fun p => Ev.input p.1 p.2)).runs =
      autorunOnState.runs ∨
    (runEvents autorunOnState
        ([(0, "a"), (100, "ab")].map fun p => Ev.input p.1 p.2)).runs =
      autorunOnState.runs ++
        [(([(0, "a"), (100, "ab")] : List (Nat × String)).getLast (by decide)).2] :=
  burst_at_most_one_run autorunOnState [(0, "a"), (100, "ab")] rfl rfl
    (by decide) (by decide)

/-- C3 amended: when the debounce timer fires, a run is triggered only if
the current editor text differs from the last-run snapshot; the auto-run
check happens when the text-change schedules the timer, not when it fires:
a text-change with auto-run enabled (re)sets the timer to fire
`DEBOUNCE_MS` later, while a text-change with auto-run disabled leaves any
pending timer untouched. -/
theorem debounce_guard_and_reset :
    (∀ s : AppState, s.editor = s.lastRunCode → autoRunCallback s = s) ∧
    (∀ (s : AppState) (t : Nat) (text : String), s.autorun = true →
        (onInput t text s).timer = some (t + DEBOUNCE_MS)) ∧
    (∀ (s : AppState) (t : Nat) (text : String), s.autorun = false →
        (onInput t text s).timer = s.timer) := by
  refine ⟨?_, ?_, ?_⟩
  · intro s h
    unfold autoRunCallback
    rw [if_neg (show ¬s.editor ≠ s.lastRunCode from fun hne => hne h)]
  · intro s t text h
    rw [onInput_autorun_on s t text h]
  · intro s t text h
    unfold onInput scheduleAutoRun
    split
    · simp_all
    · rfl

theorem debounce_guard_and_reset_witness :
    autoRunCallback initialAppState = initialAppState ∧
    (onInput 5 "x" autorunOnState).timer = some (5 + DEBOUNCE_MS) ∧
    (onInput 5 "x" initialAppState).timer = initialAppState.timer :=
  ⟨debounce_guard_and_reset.1 initialAppState rfl,
   debounce_guard_and_reset.2.1 autorunOnState 5 "x" rfl,
   debounce_guard_and_reset.2.2 initialAppState 5 "x" rfl⟩

/-- C3 counterexample: with auto-run enabled, a keystroke at time 0
schedules the debounce timer; unchecking auto-run at time 100 does not
cancel it, and when the timer fires, a run is triggered even though
auto-run is disabled at that moment (first conjunct pair). And a keystroke
at time 100 while auto-run is disabled does not reset the pending timer:
it still fires 600 ms after the first keystroke, not the second (second
conjunct pair). -/
theorem autorun_checked_at_schedule_not_at_fire :
    ((runEvents autorunOnState
        [Ev.input 0 "x", Ev.toggleAutorun 100 false]).runs = ["x"] ∧
     (runEvents autorunOnState
        [Ev.input 0 "x", Ev.toggleAutorun 100 false]).autorun = false) ∧
    (([Ev.input 0 "x", Ev.toggleAutorun 10 false, Ev.input 100 "y"].foldl
        stepEv autorunOnState).timer = some (0 + DEBOUNCE_MS) ∧
     ([Ev.input 0 "x", Ev.toggleAutorun 10 false, Ev.input 100 "y"].foldl
        stepEv autorunOnState).timer ≠ some (100 + DEBOUNCE_MS)) := by
  decide
